import Mathlib

/-!
Verification of the Auto_monitor presence-and-notification system.

The frontend TypeScript sources under `src/Front` (and the unnamed parts of the
same repository) are embedded shallowly: interface shapes become field lists,
pure functions become Lean functions, and the backend engine, whose Python
sources are absent from the snapshot, is modelled from the specification where
a claim requires it.
-/

namespace AutoMonitor

/-! ## TypeScript interface shapes

A TypeScript field type, restricted to the forms occurring in the Student and
settings declarations. -/

inductive TsType where
  | num : TsType
  | str : TsType
  | bool : TsType
  | nullable : TsType → TsType
  | lit : List String → TsType
  deriving DecidableEq, Repr

/-- One field of a TypeScript interface: name, type, and optionality marker. -/
structure TsField where
  name : String
  ty : TsType
  optional : Bool
  deriving DecidableEq, Repr

/-- The `Student` interface declared in `src/Front/src/types/student.ts`. -/
def studentFieldsFront : List TsField :=
  [ ⟨"id", .num, false⟩,
    ⟨"zep_name", .str, false⟩,
    ⟨"discord_id", .nullable .num, true⟩,
    ⟨"is_cam_on", .bool, false⟩,
    ⟨"last_status_change", .nullable .str, true⟩,
    ⟨"last_leave_time", .nullable .str, true⟩,
    ⟨"is_absent", .bool, false⟩,
    ⟨"absent_type", .nullable (.lit ["leave", "early_leave"]), true⟩,
    ⟨"alert_count", .num, false⟩ ]

/-- The `Student` interface declared in `src/unnamed/part_018`. -/
def studentFieldsPart018 : List TsField :=
  [ ⟨"id", .num, false⟩,
    ⟨"zep_name", .str, false⟩,
    ⟨"discord_id", .nullable .str, true⟩,
    ⟨"is_admin", .bool, false⟩,
    ⟨"is_cam_on", .bool, false⟩,
    ⟨"last_status_change", .nullable .str, true⟩,
    ⟨"last_leave_time", .nullable .str, true⟩,
    ⟨"is_absent", .bool, false⟩,
    ⟨"absent_type", .nullable (.lit ["leave", "early_leave"]), true⟩,
    ⟨"status_type", .nullable (.lit ["late", "leave", "early_leave", "vacation", "absence"]), true⟩,
    ⟨"status_set_at", .nullable .str, true⟩,
    ⟨"alarm_blocked_until", .nullable .str, true⟩,
    ⟨"status_auto_reset_date", .nullable .str, true⟩,
    ⟨"alert_count", .num, false⟩,
    ⟨"not_joined", .bool, true⟩ ]

/-- Look up the type of a field by name in an interface shape. -/
def fieldType (fs : List TsField) (n : String) : Option TsType :=
  (fs.find? (fun f => f.name = n)).map TsField.ty

/-- The field names declared by an interface shape. -/
def fieldNames (fs : List TsField) : List String := fs.map TsField.name

/-! ## Settings update payloads

The key sets of the `SettingsUpdatePayload` types (a `Partial` `Pick` of
`SettingsResponse`, so exactly the listed keys are updatable). -/

/-- Keys of `SettingsUpdatePayload` in `src/Front/src/types/settings.ts`. -/
def settingsUpdateKeysFront : List String :=
  [ "camera_off_threshold", "alert_cooldown", "check_interval",
    "leave_alert_threshold", "class_start_time", "class_end_time",
    "lunch_start_time", "lunch_end_time", "daily_reset_time",
    "status_parsing_enabled", "status_camp_filter" ]

/-- Keys of `SettingsUpdatePayload` in `src/unnamed/part_018`. -/
def settingsUpdateKeysPart018 : List String :=
  [ "camera_off_threshold", "alert_cooldown", "check_interval",
    "leave_alert_threshold", "class_start_time", "class_end_time",
    "lunch_start_time", "lunch_end_time", "daily_reset_time" ]

/-- The hot-reloadable configuration keys listed by the specification:
camera_off_threshold, alert_cooldown, check_interval, leave_alert_threshold,
the class and lunch window times, and daily_reset_time. -/
def specConfigKeys : List String :=
  [ "camera_off_threshold", "alert_cooldown", "check_interval",
    "leave_alert_threshold", "class_start_time", "class_end_time",
    "lunch_start_time", "lunch_end_time", "daily_reset_time" ]

end AutoMonitor

namespace AutoMonitor

/-- Claim C1, counterexample: The two `Student` declarations do not agree on
shape: the `part_018` declaration has `is_admin` and `not_joined` while the
`Front/src/types/student.ts` declaration has neither, and they give
`discord_id` different types (`number | null` versus `string | null`). -/
theorem studentShapesDisagree :
    studentFieldsFront ≠ studentFieldsPart018 ∧
    fieldType studentFieldsPart018 "is_admin" = some .bool ∧
    fieldType studentFieldsFront "is_admin" = none ∧
    fieldType studentFieldsPart018 "not_joined" = some .bool ∧
    fieldType studentFieldsFront "not_joined" = none ∧
    fieldType studentFieldsFront "discord_id" = some (.nullable .num) ∧
    fieldType studentFieldsPart018 "discord_id" = some (.nullable .str) := by
  refine ⟨?_, by decide, by decide, by decide, by decide, by decide, by decide⟩
  decide

/-- Claim C1, amended: The `part_018` `Student` declaration carries every field of
the spec's Student model (id, zep_name as match key, nullable discord_id,
is_admin, is_cam_on, last state change, last leave time, absence information,
alert_count, and not_joined); the `Front/src/types/student.ts` declaration
carries the same fields except that it omits `is_admin`, `not_joined` and the
`status_*` absence fields, and it types `discord_id` as nullable number where
`part_018` uses nullable string. -/
theorem studentShapes :
    "id" ∈ fieldNames studentFieldsPart018 ∧
    "zep_name" ∈ fieldNames studentFieldsPart018 ∧
    "discord_id" ∈ fieldNames studentFieldsPart018 ∧
    "is_admin" ∈ fieldNames studentFieldsPart018 ∧
    "is_cam_on" ∈ fieldNames studentFieldsPart018 ∧
    "last_status_change" ∈ fieldNames studentFieldsPart018 ∧
    "last_leave_time" ∈ fieldNames studentFieldsPart018 ∧
    "is_absent" ∈ fieldNames studentFieldsPart018 ∧
    "status_type" ∈ fieldNames studentFieldsPart018 ∧
    "alert_count" ∈ fieldNames studentFieldsPart018 ∧
    "not_joined" ∈ fieldNames studentFieldsPart018 ∧
    fieldNames studentFieldsFront =
      (fieldNames studentFieldsPart018).filter
        (fun n => n ∉ ["is_admin", "not_joined", "status_type", "status_set_at",
                       "alarm_blocked_until", "status_auto_reset_date"]) ∧
    fieldType studentFieldsFront "discord_id" = some (.nullable .num) ∧
    fieldType studentFieldsPart018 "discord_id" = some (.nullable .str) := by
  decide

/-- Claim C2, counterexample: The settings-update payload accepted by the
`Front/src/types/settings.ts` interface does not have exactly the spec's key
list: it additionally allows `status_parsing_enabled` (and
`status_camp_filter`), so its key set is not equal to the spec's list. -/
theorem settingsUpdateKeysFrontExceedSpec :
    settingsUpdateKeysFront ≠ specConfigKeys ∧
    "status_parsing_enabled" ∈ settingsUpdateKeysFront ∧
    "status_parsing_enabled" ∉ specConfigKeys ∧
    "status_camp_filter" ∈ settingsUpdateKeysFront ∧
    "status_camp_filter" ∉ specConfigKeys := by
  decide

/-- Claim C2, amended: The `part_018` settings-update payload's key set equals
exactly the spec's configuration list (camera_off_threshold, alert_cooldown,
check_interval, leave_alert_threshold, class window times, lunch window times,
daily_reset_time); the `Front/src/types/settings.ts` payload allows exactly
those nine keys plus `status_parsing_enabled` and `status_camp_filter`. -/
theorem settingsUpdateKeys :
    settingsUpdateKeysPart018 = specConfigKeys ∧
    settingsUpdateKeysFront =
      specConfigKeys ++ ["status_parsing_enabled", "status_camp_filter"] := by
  decide

/-! ## Status types and the status-update operation

From `src/unnamed/part_006` (`StatusType`, `STATUS_OPTIONS`) and
`src/Front/src/services/studentService.ts` (`updateStudentStatus`): the only
status values the update operation accepts are the five literals or `null`. -/

/-- The student status literals of `StatusType` in `src/unnamed/part_006` and
of `Student.status_type` in `src/unnamed/part_018`. -/
inductive StatusType where
  | late : StatusType
  | leave : StatusType
  | early_leave : StatusType
  | vacation : StatusType
  | absence : StatusType
  deriving DecidableEq, Repr

/-- The `part_018` `Student` record, restricted to the fields the status-update
path reads or writes (`details` of other operations are unaffected). -/
structure Student where
  id : Nat
  zep_name : String
  discord_id : Option String
  is_admin : Bool
  is_cam_on : Bool
  is_absent : Bool
  status_type : Option StatusType
  alert_count : Nat
  deriving DecidableEq, Repr

/-- The effect on the stored record of `updateStudentStatus` in
`src/Front/src/services/studentService.ts`: a `PUT` whose JSON body is
`{ status_type: statusType }`, with `statusType` drawn from the five literals
or `null` (modelled as `Option StatusType`). -/
def updateStudentStatus (s : Student) (statusType : Option StatusType) : Student :=
  { s with status_type := statusType }

/-- The `value` column of `STATUS_OPTIONS` in `src/unnamed/part_006`, in
declaration order: late, leave, early_leave, vacation, absence, null. -/
def statusOptionValues : List (Option StatusType) :=
  [some .late, some .leave, some .early_leave, some .vacation, some .absence, none]

/-- The status values the claim allows: exactly late, leave, early_leave,
vacation, absence, or the none/null value. -/
def allowedStatusValues : List (Option StatusType) :=
  [some .late, some .leave, some .early_leave, some .vacation, some .absence, none]

lemma statusValue_mem_allowed (v : Option StatusType) : v ∈ allowedStatusValues := by
  rcases v with _ | st
  · decide
  · cases st <;> decide

/-- Claim C3: After any sequence of status-update operations the stored
`status_type` is one of exactly late, leave, early_leave, vacation, absence or
the none/null value; the selectable options of the status dialog are exactly
these values, so no operation can ever store any other status. -/
theorem statusUpdateInvariant (s : Student) (ops : List (Option StatusType)) :
    (ops.foldl updateStudentStatus s).status_type ∈ allowedStatusValues ∧
    statusOptionValues = allowedStatusValues :=
  ⟨statusValue_mem_allowed _, rfl⟩

/-! ## Dashboard statistics (C8)

From `src/Front/src/stores/useLogStore.ts` (`LogStats` initial shape,
`updateStats`) and `src/Front/src/hooks/useRealtimeLogs.ts`
(`handleMessage`, `DASHBOARD_UPDATE` case). -/

/-- The statistics record kept by the log store (the shape of `initialStats`
in `src/Front/src/stores/useLogStore.ts`). -/
structure LogStats where
  total : Nat
  camera_on : Nat
  camera_off : Nat
  user_join : Nat
  user_leave : Nat
  alerts_sent : Nat
  errors : Nat
  deriving DecidableEq, Repr

/-- A `Partial<LogStats>` update: each field optionally present. -/
structure StatsPatch where
  total : Option Nat := none
  camera_on : Option Nat := none
  camera_off : Option Nat := none
  user_join : Option Nat := none
  user_leave : Option Nat := none
  alerts_sent : Option Nat := none
  errors : Option Nat := none
  deriving DecidableEq, Repr

/-- `updateStats` in `src/Front/src/stores/useLogStore.ts`: the spread merge
`{ ...state.stats, ...stats }`, keeping the previous value of every field the
patch does not mention. -/
def updateStats (s : LogStats) (p : StatsPatch) : LogStats :=
  { total := p.total.getD s.total,
    camera_on := p.camera_on.getD s.camera_on,
    camera_off := p.camera_off.getD s.camera_off,
    user_join := p.user_join.getD s.user_join,
    user_leave := p.user_leave.getD s.user_leave,
    alerts_sent := p.alerts_sent.getD s.alerts_sent,
    errors := p.errors.getD s.errors }

/-- The payload of a `DASHBOARD_UPDATE` websocket message as cast in
`src/Front/src/hooks/useRealtimeLogs.ts`. -/
structure DashboardPayload where
  camera_on : Nat
  camera_off : Nat
  left : Nat
  threshold_exceeded : Nat
  total_students : Nat
  not_joined_today : Option Nat
  deriving DecidableEq, Repr

/-- The `newStats` object built in the `DASHBOARD_UPDATE` case of
`handleMessage` in `src/Front/src/hooks/useRealtimeLogs.ts`. -/
def dashboardNewStats (p : DashboardPayload) : StatsPatch :=
  { total := some p.total_students,
    camera_on := some p.camera_on,
    camera_off := some p.camera_off,
    user_join := some (p.camera_on + p.camera_off),
    user_leave := some p.left,
    alerts_sent := some p.threshold_exceeded,
    errors := some 0 }

/-- Processing a `DASHBOARD_UPDATE` message: `updateStats(newStats)`. -/
def handleDashboardUpdate (stats : LogStats) (p : DashboardPayload) : LogStats :=
  updateStats stats (dashboardNewStats p)

/-- Claim C8: Processing a `DASHBOARD_UPDATE` message makes the stats a pure
function of the payload: total = total_students, user_join = camera_on +
camera_off, user_leave = left, alerts_sent = threshold_exceeded, errors = 0,
and the result is independent of the previous stats state. -/
theorem dashboardUpdatePure (prev prevOther : LogStats) (p : DashboardPayload) :
    (handleDashboardUpdate prev p).total = p.total_students ∧
    (handleDashboardUpdate prev p).user_join = p.camera_on + p.camera_off ∧
    (handleDashboardUpdate prev p).user_leave = p.left ∧
    (handleDashboardUpdate prev p).alerts_sent = p.threshold_exceeded ∧
    (handleDashboardUpdate prev p).errors = 0 ∧
    handleDashboardUpdate prev p = handleDashboardUpdate prevOther p :=
  ⟨rfl, rfl, rfl, rfl, rfl, rfl⟩

/-! ## The log store's bounded buffer (C9)

From `src/Front/src/stores/useLogStore.ts`: `MAX_STORED_LOGS`, the `addLog`
list management, and the `partialize` persistence snapshot. -/

def MAX_STORED_LOGS : Nat := 500

/-- Log severity, from `src/unnamed/part_019` (`LogLevel`). -/
inductive LogLevel where
  | info | warning | error | success
  deriving DecidableEq, Repr

/-- Log origin, from `src/unnamed/part_019` (`LogSource`). -/
inductive LogSource where
  | slack | discord | system | monitor
  deriving DecidableEq, Repr

/-- A stored log entry, from `src/unnamed/part_019` (`LogEntry`); the untyped
`details` record is not needed by the store's list management and is omitted. -/
structure LogEntry where
  id : String
  timestamp : String
  level : LogLevel
  source : LogSource
  event_type : String
  message : String
  student_name : Option String := none
  student_id : Option Nat := none
  deriving DecidableEq, Repr

/-- The list update performed by `addLog` in
`src/Front/src/stores/useLogStore.ts`:
`logs.length >= maxLogs ? [...logs.slice(1), entry] : [...logs, entry]`. -/
def addLogEntry (maxLogs : Nat) (logs : List LogEntry) (entry : LogEntry) : List LogEntry :=
  if maxLogs ≤ logs.length then logs.drop 1 ++ [entry] else logs ++ [entry]

/-- Folding a sequence of `addLog` calls over the store's initial empty list,
with the store's `maxLogs = MAX_STORED_LOGS`. -/
def addLogs (entries : List LogEntry) : List LogEntry :=
  entries.foldl (addLogEntry MAX_STORED_LOGS) []

/-- The `partialize` snapshot in `src/Front/src/stores/useLogStore.ts`:
`logs.slice(-MAX_STORED_LOGS)`, i.e. the last `MAX_STORED_LOGS` entries. -/
def persistSnapshot (logs : List LogEntry) : List LogEntry :=
  logs.drop (logs.length - MAX_STORED_LOGS)

lemma addLogEntry_drop (m : Nat) (hm : 1 ≤ m) (xs : List LogEntry) (e : LogEntry) :
    addLogEntry m (xs.drop (xs.length - m)) e =
      (xs ++ [e]).drop ((xs ++ [e]).length - m) := by
  by_cases h : m ≤ xs.length
  · have hlen : (xs.drop (xs.length - m)).length = m := by
      rw [List.length_drop]; omega
    rw [addLogEntry, if_pos (le_of_eq hlen.symm), List.drop_drop,
      List.drop_append_eq_append_drop]
    have h1 : xs.length - m + 1 = (xs ++ [e]).length - m := by
      simp [List.length_append]; omega
    have h2 : (xs ++ [e]).length - m - xs.length = 0 := by
      simp [List.length_append]; omega
    rw [h2, List.drop_zero, ← h1]
  · have hlt : xs.length < m := lt_of_not_le h
    have hz : xs.length - m = 0 := by omega
    have hz' : (xs ++ [e]).length - m = 0 := by
      simp [List.length_append]; omega
    rw [hz, hz', List.drop_zero, List.drop_zero, addLogEntry,
      if_neg (by omega)]

lemma foldl_addLogEntry (m : Nat) (hm : 1 ≤ m) (es : List LogEntry) :
    ∀ xs : List LogEntry,
      es.foldl (addLogEntry m) (xs.drop (xs.length - m)) =
        (xs ++ es).drop ((xs ++ es).length - m) := by
  induction es with
  | nil => intro xs; simp
  | cons e es ih =>
    intro xs
    rw [List.foldl_cons, addLogEntry_drop m hm xs e, ih (xs ++ [e]),
      List.append_assoc]
    rfl

lemma addLogs_eq_lastN (es : List LogEntry) :
    addLogs es = es.drop (es.length - MAX_STORED_LOGS) := by
  have h := foldl_addLogEntry MAX_STORED_LOGS (by norm_num [MAX_STORED_LOGS]) es []
  simp only [List.length_nil, Nat.zero_sub, List.drop_nil, List.drop_zero,
    List.nil_append] at h
  exact h

/-- Claim C9: The stored log list never exceeds `MAX_STORED_LOGS = 500` entries:
any sequence of `addLog` calls leaves exactly the most recent 500 entries, in
insertion order (the list is the suffix of the insertion sequence); at
capacity each new entry evicts exactly the oldest entry and is appended at the
end; and the persisted `partialize` snapshot keeps only the last 500 entries
(it never exceeds 500, and on a store list it is the list itself). -/
theorem logStoreBounded (es logs : List LogEntry) (e : LogEntry) :
    (addLogs es).length ≤ MAX_STORED_LOGS ∧
    addLogs es = es.drop (es.length - MAX_STORED_LOGS) ∧
    (logs.length = MAX_STORED_LOGS →
      addLogEntry MAX_STORED_LOGS logs e = logs.drop 1 ++ [e]) ∧
    (persistSnapshot logs).length ≤ MAX_STORED_LOGS ∧
    persistSnapshot (addLogs es) = addLogs es := by
  have hsuffix := addLogs_eq_lastN es
  have hlen : (addLogs es).length ≤ MAX_STORED_LOGS := by
    rw [hsuffix, List.length_drop]; omega
  refine ⟨hlen, hsuffix, ?_, ?_, ?_⟩
  · intro hcap
    rw [addLogEntry, if_pos (le_of_eq hcap.symm)]
  · rw [persistSnapshot, List.length_drop]; omega
  · rw [persistSnapshot, Nat.sub_eq_zero_of_le hlen, List.drop_zero]

/-- A concrete log entry used to exercise `logStoreBounded` at capacity. -/
def sampleEntry : LogEntry :=
  { id := "w1", timestamp := "2026-01-01T09:00:00Z", level := .info,
    source := .system, event_type := "system_start", message := "started" }

/-- Witness for C9: at a store holding exactly 500 entries, `addLog` drops the
oldest entry and appends the new one. -/
theorem logStoreBounded_witness :
    addLogEntry MAX_STORED_LOGS (List.replicate 500 sampleEntry) sampleEntry =
      (List.replicate 500 sampleEntry).drop 1 ++ [sampleEntry] :=
  (logStoreBounded [] (List.replicate 500 sampleEntry) sampleEntry).2.2.1
    (by rw [List.length_replicate]; rfl)

/-! ## The HTTP request wrapper (C10)

From `src/unnamed/part_027` (`apiRequest`). The embedding gives the response a
synchronous shape: `ok`, `status`, `statusText`, the body as text, and the
body as parsed JSON (the value `response.json()` resolves to). -/

/-- A fetch response as read by `apiRequest`. -/
structure HttpResponse (α : Type) where
  ok : Bool
  status : Nat
  statusText : String
  bodyText : String
  jsonBody : α

/-- The value `apiRequest` resolves to: the empty object `{}` (the 204 case)
or the parsed JSON body. -/
inductive ApiValue (α : Type) where
  | emptyObject : ApiValue α
  | json (a : α) : ApiValue α
  deriving DecidableEq, Repr

/-- `apiRequest` in `src/unnamed/part_027`: on a non-ok response it throws
`API Error (status): body-or-statusText` (JS `errorBody || response.statusText`
falls back to `statusText` when the body text is empty); on 204 it returns the
empty object; otherwise it returns the parsed JSON body. -/
def apiRequest {α : Type} (r : HttpResponse α) : Except String (ApiValue α) :=
  if r.ok = false then
    Except.error ("API Error (" ++ toString r.status ++ "): " ++
      (if r.bodyText = "" then r.statusText else r.bodyText))
  else if r.status = 204 then
    Except.ok ApiValue.emptyObject
  else
    Except.ok (ApiValue.json r.jsonBody)

lemma string_append_empty (s : String) : s ++ "" = s := by
  apply String.ext
  simp [String.data_append]

/-- Claim C10: `apiRequest` throws if and only if the response is not ok; the
thrown message contains the status code and the response body text (it is
exactly `API Error (status): body`, with `statusText` substituted when the
body text is empty); an ok 204 response yields the empty object, and any other
ok response yields the parsed JSON body. -/
theorem apiRequestSpec {α : Type} (r : HttpResponse α) :
    ((∃ msg, apiRequest r = Except.error msg) ↔ r.ok = false) ∧
    (r.ok = false →
      apiRequest r = Except.error ("API Error (" ++ toString r.status ++ "): " ++
        (if r.bodyText = "" then r.statusText else r.bodyText))) ∧
    (r.ok = false → ∀ msg, apiRequest r = Except.error msg →
      (∃ u v, msg = u ++ toString r.status ++ v) ∧
      (∃ u v, msg = u ++ r.bodyText ++ v)) ∧
    (r.ok = true → r.status = 204 → apiRequest r = Except.ok ApiValue.emptyObject) ∧
    (r.ok = true → r.status ≠ 204 → apiRequest r = Except.ok (ApiValue.json r.jsonBody)) := by
  refine ⟨⟨?_, ?_⟩, ?_, ?_, ?_, ?_⟩
  · rintro ⟨msg, hmsg⟩
    by_contra hok
    have hok' : r.ok = true := by
      cases h : r.ok
      · exact absurd h hok
      · rfl
    rw [apiRequest, if_neg (by simp [hok'])] at hmsg
    by_cases h204 : r.status = 204
    · rw [if_pos h204] at hmsg; exact Except.noConfusion hmsg
    · rw [if_neg h204] at hmsg; exact Except.noConfusion hmsg
  · intro hnotOk
    exact ⟨_, by rw [apiRequest, if_pos hnotOk]⟩
  · intro hnotOk
    rw [apiRequest, if_pos hnotOk]
  · intro hnotOk msg hmsg
    rw [apiRequest, if_pos hnotOk] at hmsg
    have hm := (Except.error.injEq _ _).mp hmsg.symm
    constructor
    · exact ⟨"API Error (",
        ("): " ++ if r.bodyText = "" then r.statusText else r.bodyText),
        by rw [hm, String.append_assoc, String.append_assoc]⟩
    · by_cases hb : r.bodyText = ""
      · exact ⟨"", msg, by rw [hb]; rfl⟩
      · refine ⟨"API Error (" ++ toString r.status ++ "): ", "", ?_⟩
        rw [hm, if_neg hb, string_append_empty, String.append_assoc]
  · intro hok h204
    rw [apiRequest, if_neg (by simp [hok]), if_pos h204]
  · intro hok h204
    rw [apiRequest, if_neg (by simp [hok]), if_neg h204]

/-- A failing response used to exercise `apiRequestSpec`. -/
def respNotFound : HttpResponse Nat :=
  { ok := false, status := 404, statusText := "Not Found", bodyText := "missing",
    jsonBody := 0 }

/-- A 204 response used to exercise `apiRequestSpec`. -/
def respNoContent : HttpResponse Nat :=
  { ok := true, status := 204, statusText := "No Content", bodyText := "",
    jsonBody := 0 }

/-- An ok JSON response used to exercise `apiRequestSpec`. -/
def respOkJson : HttpResponse Nat :=
  { ok := true, status := 200, statusText := "OK", bodyText := "7", jsonBody := 7 }

/-- Witness for C10: on a 404 response with body `missing` the wrapper throws
`API Error (404): missing`; on 204 it returns the empty object; on an ok 200
response it returns the parsed body. -/
theorem apiRequestSpec_witness :
    apiRequest respNotFound = Except.error "API Error (404): missing" ∧
    apiRequest respNoContent = Except.ok ApiValue.emptyObject ∧
    apiRequest respOkJson = Except.ok (ApiValue.json 7) := by
  refine ⟨?_, ?_, ?_⟩
  · exact ((apiRequestSpec respNotFound).2.1 rfl).trans
      (congrArg Except.error (by decide))
  · exact (apiRequestSpec respNoContent).2.2.2.1 rfl rfl
  · exact (apiRequestSpec respOkJson).2.2.2.2 rfl (by decide)

/-! ## The presence and notification core

The Python backend implementing the classifier, the state machine, the
escalation engine and restart recovery is not part of the source snapshot
(only its changelog is), so this part is modelled from the specification, as
marked on each definition. -/

/-- Modelled from the spec: an active absence entry — absence{type, set_at,
start, end?} of the Student data model, with `type ≠ none` represented by the
entry being present. The type values reuse `StatusType`, whose five literals
coincide with the spec's non-none absence types. -/
structure AbsenceInfo where
  ty : StatusType
  set_at : Nat
  startAt : Nat
  endAt : Option Nat
  deriving DecidableEq, Repr

/-- Modelled from the spec: the per-student presence state of the Student data
model (camera_state, last_state_change_at, join_state, last_leave_at, absence,
notification stage_count and last_notified_at, not_joined_today), with the
identity fields the engine reads (id, is_admin). -/
structure StuState where
  id : Nat
  is_admin : Bool
  camera_on : Bool
  last_state_change_at : Nat
  joined : Bool
  last_leave_at : Option Nat
  absence : Option AbsenceInfo
  stage_count : Nat
  last_notified_at : Option Nat
  not_joined_today : Bool
  deriving DecidableEq, Repr

/-- Modelled from the spec: the PresenceEvent tagged union produced by the
Classifier (CameraOn, CameraOff, Join, Leave, StatusChange), each carrying its
source timestamp. -/
inductive PresenceEvent where
  | cameraOn (t : Nat)
  | cameraOff (t : Nat)
  | join (t : Nat)
  | leave (t : Nat)
  | statusChange (t : Nat) (info : AbsenceInfo)
  deriving DecidableEq, Repr

/-- Modelled from the spec (§4.2 Join): an absence of type leave or
early_leave is auto-cleared on return; vacation and absence entries are
day/period-scoped and not cleared by Join. -/
def clearOnJoin : Option AbsenceInfo → Option AbsenceInfo
  | some i => if i.ty = .leave ∨ i.ty = .early_leave then none else some i
  | none => none

/-- Modelled from the spec (§4.2): the deterministic per-student transition
function `apply(event, state)`. -/
def applyEvent (e : PresenceEvent) (s : StuState) : StuState :=
  match e with
  | .cameraOn t =>
      { s with camera_on := true, last_state_change_at := t, stage_count := 0 }
  | .cameraOff t =>
      { s with camera_on := false, last_state_change_at := t }
  | .join _ =>
      { s with joined := true, last_leave_at := none,
               absence := clearOnJoin s.absence, not_joined_today := false }
  | .leave t =>
      { s with joined := false, last_leave_at := some t }
  | .statusChange t info =>
      { s with absence := some { info with set_at := t } }

/-- Modelled from the spec (§6): the threshold and cooldown configuration the
engine consumes. -/
structure Config where
  camera_off_threshold : Nat
  alert_cooldown : Nat
  check_interval : Nat
  leave_alert_threshold : Nat
  deriving DecidableEq, Repr

/-- Modelled from the spec (§4.3/§4.4): an outbound notification. -/
inductive Alert where
  | stage1 (student : Nat)
  | stageN (student : Nat) (stage : Nat)
  | leaveFirst (student : Nat)
  | leaveMore (student : Nat) (stage : Nat)
  deriving DecidableEq, Repr

/-- Modelled from the spec (§4.3): escalation is evaluated only for non-admin
students with camera off, join_state joined and no active absence. -/
def escalationEligible (s : StuState) : Bool :=
  !s.is_admin && !s.camera_on && s.joined && !s.absence.isSome

/-- Modelled from the spec (§4.3): the escalation engine's evaluation of one
student at tick instant `now` — stage 1 after camera_off_threshold, stages ≥ 2
after alert_cooldown from the last notification. -/
def escalationAlert (cfg : Config) (now : Nat) (s : StuState) : Option Alert :=
  if escalationEligible s then
    if s.stage_count = 0 then
      if cfg.camera_off_threshold ≤ now - s.last_state_change_at then
        some (.stage1 s.id)
      else none
    else
      if cfg.alert_cooldown ≤ now - s.last_notified_at.getD 0 then
        some (.stageN s.id (s.stage_count + 1))
      else none
  else none

/-- Modelled from the spec (§4.4): the leave/return monitor's evaluation —
admin students are excluded, the first alert fires after leave_alert_threshold
from last_leave_at, later alerts follow the same cooldown discipline. -/
def leaveMonitorAlert (cfg : Config) (now : Nat) (s : StuState) : Option Alert :=
  if s.is_admin then none
  else if s.joined then none
  else if s.absence.isSome then none
  else
    match s.last_leave_at with
    | none => none
    | some t =>
      if s.stage_count = 0 then
        if cfg.leave_alert_threshold ≤ now - t then some (.leaveFirst s.id)
        else none
      else
        if cfg.alert_cooldown ≤ now - s.last_notified_at.getD 0 then
          some (.leaveMore s.id (s.stage_count + 1))
        else none

/-- Modelled from the spec (§4.3): committing a successful send — stage_count
advances by one and last_notified_at becomes the send instant. -/
def commitAlert (now : Nat) (s : StuState) : StuState :=
  { s with stage_count := s.stage_count + 1, last_notified_at := some now }

/-- Modelled from the spec (§4.3/§5): send-then-commit. The pending alert, if
any, is attempted; only a successful send (`sendOk`) commits the stage
advance, and a failed send leaves the state untouched for the next tick. -/
def escalationStep (cfg : Config) (now : Nat) (sendOk : Bool) (s : StuState) :
    StuState × Option Alert :=
  match escalationAlert cfg now s with
  | none => (s, none)
  | some a => if sendOk then (commitAlert now s, some a) else (s, none)

/-- Modelled from the spec (§4.4): the leave monitor's send-then-commit step. -/
def leaveMonitorStep (cfg : Config) (now : Nat) (sendOk : Bool) (s : StuState) :
    StuState × Option Alert :=
  match leaveMonitorAlert cfg now s with
  | none => (s, none)
  | some a => if sendOk then (commitAlert now s, some a) else (s, none)

/-- Modelled from the spec (§4.6 step 2): one scheduler tick's evaluation for a
single student — escalation engine then leave/return monitor. -/
def tickStudent (cfg : Config) (now : Nat) (sendOk : Bool) (s : StuState) :
    StuState × List Alert :=
  let p := escalationStep cfg now sendOk s
  let q := leaveMonitorStep cfg now sendOk p.1
  (q.1, p.2.toList ++ q.2.toList)

/-- Modelled from the spec (§2): an occurrence affecting one student — either
a classified inbound event or a scheduler tick (with its send outcome). -/
inductive Action where
  | ev (e : PresenceEvent)
  | tick (now : Nat) (sendOk : Bool)
  deriving DecidableEq, Repr

/-- One action applied to a student state and the accumulated alert list. -/
def runStep (cfg : Config) (st : StuState × List Alert) (a : Action) :
    StuState × List Alert :=
  match a with
  | .ev e => (applyEvent e st.1, st.2)
  | .tick now sendOk =>
      let r := tickStudent cfg now sendOk st.1
      (r.1, st.2 ++ r.2)

/-- A whole run: all alerts ever emitted for the student along a sequence of
events and ticks. -/
def run (cfg : Config) (s : StuState) (acts : List Action) :
    StuState × List Alert :=
  acts.foldl (runStep cfg) (s, [])

/-- Modelled from the spec (§4.6 step 4): whether an absence entry survives
the daily reset — only vacation/absence entries whose end date has not yet
passed do. -/
def absenceSurvivesReset (today : Nat) (i : AbsenceInfo) : Bool :=
  if i.ty = .vacation ∨ i.ty = .absence then
    match i.endAt with
    | some d => if today ≤ d then true else false
    | none => false
  else false

/-- Modelled from the spec (§4.6 step 4): the daily reset — camera, leave and
notification counters are cleared for every student, while vacation/absence
entries with an unexpired end date are preserved. -/
def dailyReset (today : Nat) (s : StuState) : StuState :=
  { s with camera_on := false, joined := false, last_leave_at := none,
           stage_count := 0, last_notified_at := none,
           not_joined_today := true,
           absence := match s.absence with
             | some i => if absenceSurvivesReset today i then some i else none
             | none => none }

/-! ### Restart recovery (modelled from the spec, §4.5) -/

/-- Modelled from the spec (§6): a relayed chat message — id, text and
timestamp; the Classifier depends only on text and timestamp. -/
structure RelayMsg where
  msgId : Nat
  text : String
  ts : Nat
  deriving DecidableEq, Repr

/-- Modelled from the spec (§4.5 step 3): de-duplicate the fetched history by
message id, keeping the first occurrence of each id. -/
def dedupById (msgs : List RelayMsg) : List RelayMsg :=
  msgs.foldl
    (fun acc m => if acc.any (fun m2 => m2.msgId == m.msgId) then acc
                  else acc ++ [m]) []

/-- Modelled from the spec (§4.5 step 1): on process start every student is
reset to camera off, join_state left, stage_count 0, with no remembered
presence timestamps; identity and the durably stored absence are kept. -/
def resetForRecovery (s : StuState) : StuState :=
  { s with camera_on := false, joined := false, last_leave_at := none,
           last_state_change_at := 0, stage_count := 0,
           last_notified_at := none, not_joined_today := false }

/-- Modelled from the spec (§4.5 step 4): replay of the classified events in
chronological order through the State Machine only. -/
def replayStu (s : StuState) (events : List PresenceEvent) : StuState :=
  events.foldl (fun st e => applyEvent e st) s

/-- Replay with an explicit alert accumulator: the Escalation Engine is never
invoked during replay, so the accumulator is only ever carried through. -/
def replayStuLogged (s : StuState) (events : List PresenceEvent) :
    StuState × List Alert :=
  events.foldl (fun acc e => (applyEvent e acc.1, acc.2)) (s, [])

/-- Whether an event is a Join. -/
def isJoinEvent : PresenceEvent → Bool
  | .join _ => true
  | _ => false

/-- Modelled from the spec (§4.5 step 5): after replay, a student whose
join_state is still left and who never joined during the window is marked
not_joined_today. -/
def wrapAfterReplay (events : List PresenceEvent) (r : StuState) : StuState :=
  if r.joined = false ∧ events.any isJoinEvent = false then
    { r with not_joined_today := true }
  else r

/-- Modelled from the spec (§4.5 steps 1, 4 and 5): recovery for one student —
reset, replay, then the not_joined_today marking. -/
def recoverStu (events : List PresenceEvent) (s : StuState) : StuState :=
  wrapAfterReplay events (replayStu (resetForRecovery s) events)

/-- Modelled from the spec (§4.5 steps 2–4): full recovery from the relayed
history — de-duplicate, classify each message, replay. -/
def recoverFromHistory (classify : RelayMsg → Option PresenceEvent)
    (msgs : List RelayMsg) (s : StuState) : StuState :=
  recoverStu ((dedupById msgs).filterMap classify) s

/-! ### Admin students are excluded from all notification paths (C4) -/

lemma applyEvent_is_admin (e : PresenceEvent) (s : StuState) :
    (applyEvent e s).is_admin = s.is_admin := by
  cases e <;> rfl

lemma escalationAlert_admin (cfg : Config) (now : Nat) (s : StuState)
    (h : s.is_admin = true) : escalationAlert cfg now s = none := by
  rw [escalationAlert, escalationEligible, h]
  rfl

lemma leaveMonitorAlert_admin (cfg : Config) (now : Nat) (s : StuState)
    (h : s.is_admin = true) : leaveMonitorAlert cfg now s = none := by
  rw [leaveMonitorAlert, if_pos h]

lemma tickStudent_admin (cfg : Config) (now : Nat) (sendOk : Bool)
    (s : StuState) (h : s.is_admin = true) :
    tickStudent cfg now sendOk s = (s, []) := by
  rw [tickStudent, escalationStep, escalationAlert_admin cfg now s h]
  rw [leaveMonitorStep, leaveMonitorAlert_admin cfg now s h]
  rfl

lemma run_admin (cfg : Config) (acts : List Action) :
    ∀ (s : StuState) (acc : List Alert), s.is_admin = true →
      acts.foldl (runStep cfg) (s, acc) =
        ((acts.foldl (runStep cfg) (s, acc)).1, acc) ∧
      (acts.foldl (runStep cfg) (s, acc)).1.is_admin = true := by
  induction acts with
  | nil => intro s acc h; exact ⟨rfl, h⟩
  | cons a acts ih =>
    intro s acc h
    cases a with
    | ev e =>
      have := ih (applyEvent e s) acc (by rw [applyEvent_is_admin]; exact h)
      simpa [List.foldl_cons, runStep] using this
    | tick now sendOk =>
      have hstep : runStep cfg (s, acc) (Action.tick now sendOk) = (s, acc) := by
        rw [runStep, tickStudent_admin cfg now sendOk s h]
        simp
      rw [List.foldl_cons, hstep]
      exact ih s acc h

/-- Claim C4: For a student whose is_admin flag is true, no notification is ever
emitted or escalated, whatever the camera state, join state, absence status or
elapsed time: the escalation engine and the leave/return monitor both evaluate
to nothing, a scheduler tick leaves the student untouched and fires nothing,
and along any run of classified events and ticks the set of alerts emitted for
the student stays empty. -/
theorem adminNeverNotified (cfg : Config) (now : Nat) (sendOk : Bool)
    (s : StuState) (acts : List Action) (hadm : s.is_admin = true) :
    escalationAlert cfg now s = none ∧
    leaveMonitorAlert cfg now s = none ∧
    tickStudent cfg now sendOk s = (s, []) ∧
    (run cfg s acts).2 = [] ∧
    (run cfg s acts).1.is_admin = true := by
  have hrun := run_admin cfg acts s [] hadm
  refine ⟨escalationAlert_admin cfg now s hadm,
    leaveMonitorAlert_admin cfg now s hadm,
    tickStudent_admin cfg now sendOk s hadm, ?_, hrun.2⟩
  rw [run, hrun.1]

/-- A configuration with the spec's running-example thresholds (camera-off
threshold 20 minutes, cooldown 10, check interval 1, leave threshold 15). -/
def exampleConfig : Config :=
  { camera_off_threshold := 20, alert_cooldown := 10, check_interval := 1,
    leave_alert_threshold := 15 }

/-- An admin-flagged student with camera off since instant 0, joined, no
absence — the exact shape that would escalate were the student not admin. -/
def adminStudent : StuState :=
  { id := 1, is_admin := true, camera_on := false, last_state_change_at := 0,
    joined := true, last_leave_at := none, absence := none, stage_count := 0,
    last_notified_at := none, not_joined_today := false }

/-- Witness for C4: the admin student fires nothing even 1000 minutes after
the camera went off, across a run containing a leave event and further ticks. -/
theorem adminNeverNotified_witness :
    escalationAlert exampleConfig 1000 adminStudent = none ∧
    leaveMonitorAlert exampleConfig 1000 adminStudent = none ∧
    tickStudent exampleConfig 1000 true adminStudent = (adminStudent, []) ∧
    (run exampleConfig adminStudent
      [.tick 25 true, .ev (.leave 30), .tick 100 true, .tick 1000 true]).2 = [] ∧
    (run exampleConfig adminStudent
      [.tick 25 true, .ev (.leave 30), .tick 100 true, .tick 1000 true]).1.is_admin
      = true := by
  exact adminNeverNotified exampleConfig 1000 true adminStudent
    [.tick 25 true, .ev (.leave 30), .tick 100 true, .tick 1000 true] rfl

/-! ### Join events and absence scoping (C5) -/

/-- Claim C5: A Join event sets join_state to joined and clears last_leave_at;
an absence of type leave or early_leave is auto-cleared by the Join
(return-triggered), while a vacation or absence entry is left unchanged by
Join and persists until its end date passes or the next daily reset: the reset
preserves such an entry while today is at or before its end date and clears it
once the end date has passed. -/
theorem joinAbsenceScoping (s : StuState) (t today d : Nat) (i : AbsenceInfo) :
    (applyEvent (.join t) s).joined = true ∧
    (applyEvent (.join t) s).last_leave_at = none ∧
    (s.absence = some i → (i.ty = .leave ∨ i.ty = .early_leave) →
      (applyEvent (.join t) s).absence = none) ∧
    (s.absence = some i → (i.ty = .vacation ∨ i.ty = .absence) →
      (applyEvent (.join t) s).absence = some i) ∧
    (s.absence = some i → (i.ty = .vacation ∨ i.ty = .absence) →
      i.endAt = some d → today ≤ d → (dailyReset today s).absence = some i) ∧
    (s.absence = some i → i.endAt = some d → d < today →
      (dailyReset today s).absence = none) := by
  refine ⟨rfl, rfl, ?_, ?_, ?_, ?_⟩
  · intro habs hty
    show clearOnJoin s.absence = none
    rw [habs, clearOnJoin, if_pos hty]
  · intro habs hty
    have hne : ¬(i.ty = .leave ∨ i.ty = .early_leave) := by
      rcases hty with h | h <;> rw [h] <;> rintro (h2 | h2) <;> cases h2
    show clearOnJoin s.absence = some i
    rw [habs, clearOnJoin, if_neg hne]
  · intro habs hty hend hle
    have hsurv : absenceSurvivesReset today i = true := by
      rcases hty with h | h <;> simp [absenceSurvivesReset, h, hend, hle]
    simp [dailyReset, habs, hsurv]
  · intro habs hend hlt
    have hsurv : absenceSurvivesReset today i = false := by
      by_cases hty : i.ty = .vacation ∨ i.ty = .absence
      · simp [absenceSurvivesReset, hty, hend, Nat.not_le.mpr hlt]
      · simp [absenceSurvivesReset, hty]
    simp [dailyReset, habs, hsurv]

/-- A vacation absence entry running from day 10 to day 12. -/
def vacationInfo : AbsenceInfo := ⟨.vacation, 1, 10, some 12⟩

/-- A return-scoped leave absence entry. -/
def leaveInfo : AbsenceInfo := ⟨.leave, 1, 10, none⟩

/-- A student on vacation until day 12 (timestamps in days for the witness). -/
def vacationStudent : StuState :=
  { id := 2, is_admin := false, camera_on := false, last_state_change_at := 0,
    joined := false, last_leave_at := some 3, absence := some vacationInfo,
    stage_count := 0, last_notified_at := none, not_joined_today := false }

/-- A student marked as on leave (return-scoped absence). -/
def onLeaveStudent : StuState :=
  { vacationStudent with id := 3, absence := some leaveInfo }

/-- Witness for C5: a Join clears the leave absence of `onLeaveStudent` but
leaves the vacation entry of `vacationStudent` untouched; the vacation entry
survives the reset of day 11 and is cleared by the reset of day 13. -/
theorem joinAbsenceScoping_witness :
    (applyEvent (.join 5) onLeaveStudent).absence = none ∧
    (applyEvent (.join 5) vacationStudent).absence = some vacationInfo ∧
    (dailyReset 11 vacationStudent).absence = some vacationInfo ∧
    (dailyReset 13 vacationStudent).absence = none := by
  refine ⟨?_, ?_, ?_, ?_⟩
  · exact (joinAbsenceScoping onLeaveStudent 5 0 0 leaveInfo).2.2.1
      rfl (Or.inl rfl)
  · exact (joinAbsenceScoping vacationStudent 5 0 0 vacationInfo).2.2.2.1
      rfl (Or.inl rfl)
  · exact (joinAbsenceScoping vacationStudent 5 11 12 vacationInfo).2.2.2.2.1
      rfl (Or.inl rfl) rfl (by decide)
  · exact (joinAbsenceScoping vacationStudent 5 13 12 vacationInfo).2.2.2.2.2
      rfl rfl (by decide)

/-! ### Send-then-commit ordering of escalations (C6) -/

lemma escalationAlert_mono (cfg : Config) (now now2 : Nat) (s : StuState)
    (a : Alert) (hsome : escalationAlert cfg now s = some a) (hle : now ≤ now2) :
    escalationAlert cfg now2 s = some a := by
  rw [escalationAlert] at hsome ⊢
  by_cases h1 : escalationEligible s
  · rw [if_pos h1] at hsome ⊢
    by_cases h2 : s.stage_count = 0
    · rw [if_pos h2] at hsome ⊢
      by_cases h3 : cfg.camera_off_threshold ≤ now - s.last_state_change_at
      · rw [if_pos h3] at hsome
        rw [if_pos (le_trans h3 (Nat.sub_le_sub_right hle _))]
        exact hsome
      · rw [if_neg h3] at hsome; cases hsome
    · rw [if_neg h2] at hsome ⊢
      by_cases h3 : cfg.alert_cooldown ≤ now - s.last_notified_at.getD 0
      · rw [if_pos h3] at hsome
        rw [if_pos (le_trans h3 (Nat.sub_le_sub_right hle _))]
        exact hsome
      · rw [if_neg h3] at hsome; cases hsome
  · rw [if_neg h1] at hsome; cases hsome

/-- Claim C6: Send-then-commit: a failed send leaves the student state — in
particular stage_count and last_notified_at — exactly as it was, and the
pending escalation is still due at the next tick (evaluation at any later
instant still yields the same alert, so it is never silently dropped); the
stage advances, by exactly one, if and only if the send succeeded while an
escalation was due, and a successful send of a due alert sets stage_count to
its successor and last_notified_at to the send instant. -/
theorem sendThenCommit (cfg : Config) (now now2 : Nat) (sendOk : Bool)
    (s : StuState) (a : Alert) :
    (escalationStep cfg now false s).1 = s ∧
    ((escalationStep cfg now sendOk s).1.stage_count = s.stage_count + 1 ↔
      sendOk = true ∧ (escalationAlert cfg now s).isSome = true) ∧
    (escalationAlert cfg now s = some a →
      (escalationStep cfg now true s).1.stage_count = s.stage_count + 1 ∧
      (escalationStep cfg now true s).1.last_notified_at = some now ∧
      (escalationStep cfg now true s).2 = some a) ∧
    (escalationAlert cfg now s = some a → now ≤ now2 →
      escalationAlert cfg now2 s = some a) := by
  refine ⟨?_, ?_, ?_, fun h hle => escalationAlert_mono cfg now now2 s a h hle⟩
  · rw [escalationStep]
    cases escalationAlert cfg now s with
    | none => rfl
    | some a2 => rfl
  · rw [escalationStep]
    cases h : escalationAlert cfg now s with
    | none =>
      simp only [Option.isSome_none, Bool.false_eq_true, and_false, iff_false]
      show ¬(s.stage_count = s.stage_count + 1)
      omega
    | some a2 =>
      cases sendOk with
      | false =>
        simp only [if_neg (by exact Bool.false_ne_true), Option.isSome_some,
          Bool.false_eq_true, false_and, iff_false]
        show ¬(s.stage_count = s.stage_count + 1)
        omega
      | true => simp [commitAlert]
  · intro h
    rw [escalationStep, h]
    exact ⟨rfl, rfl, rfl⟩

/-- A non-admin student whose camera has been off since instant 0, joined and
with no absence: an escalation is due once the threshold elapses. -/
def camOffStudent : StuState :=
  { id := 4, is_admin := false, camera_on := false, last_state_change_at := 0,
    joined := true, last_leave_at := none, absence := none, stage_count := 0,
    last_notified_at := none, not_joined_today := false }

/-- Witness for C6: at instant 25 a stage-1 alert is due for `camOffStudent`
(threshold 20); a failed send changes nothing, the alert is still due at
instant 26, and a successful send commits stage_count 1 with
last_notified_at 25. -/
theorem sendThenCommit_witness :
    (escalationStep exampleConfig 25 false camOffStudent).1 = camOffStudent ∧
    ((escalationStep exampleConfig 25 true camOffStudent).1.stage_count =
        camOffStudent.stage_count + 1 ↔
      true = true ∧ (escalationAlert exampleConfig 25 camOffStudent).isSome = true) ∧
    ((escalationStep exampleConfig 25 true camOffStudent).1.stage_count =
        camOffStudent.stage_count + 1 ∧
      (escalationStep exampleConfig 25 true camOffStudent).1.last_notified_at =
        some 25 ∧
      (escalationStep exampleConfig 25 true camOffStudent).2 =
        some (Alert.stage1 4)) ∧
    escalationAlert exampleConfig 26 camOffStudent = some (Alert.stage1 4) := by
  have h := sendThenCommit exampleConfig 25 26 true camOffStudent (Alert.stage1 4)
  exact ⟨(sendThenCommit exampleConfig 25 26 false camOffStudent
      (Alert.stage1 4)).1,
    h.2.1, h.2.2.1 (by decide), h.2.2.2 (by decide) (by decide)⟩

/-! ### Replay idempotence of restart recovery (C7)

The absence field is the only per-student field that survives the recovery
reset, so idempotence of the whole procedure reduces to idempotence of the
action replay has on the absence field. -/

/-- The action one event has on the absence field alone. -/
def absStep (e : PresenceEvent) (a : Option AbsenceInfo) : Option AbsenceInfo :=
  match e with
  | .join _ => clearOnJoin a
  | .statusChange t info => some { info with set_at := t }
  | _ => a

/-- The action a whole event list has on the absence field. -/
def absFold (events : List PresenceEvent) (a : Option AbsenceInfo) :
    Option AbsenceInfo :=
  events.foldl (fun x e => absStep e x) a

lemma applyEvent_id (e : PresenceEvent) (s : StuState) :
    (applyEvent e s).id = s.id := by
  cases e <;> rfl

lemma applyEvent_absence (e : PresenceEvent) (s : StuState) :
    (applyEvent e s).absence = absStep e s.absence := by
  cases e <;> rfl

lemma applyEvent_absence_split (e : PresenceEvent) (s : StuState)
    (a : Option AbsenceInfo) :
    applyEvent e { s with absence := a } =
      { applyEvent e s with absence := absStep e a } := by
  cases e <;> rfl

lemma replay_id (events : List PresenceEvent) :
    ∀ s : StuState, (replayStu s events).id = s.id := by
  induction events with
  | nil => intro s; rfl
  | cons e es ih =>
    intro s
    show (replayStu (applyEvent e s) es).id = s.id
    rw [ih (applyEvent e s), applyEvent_id]

lemma replay_is_admin (events : List PresenceEvent) :
    ∀ s : StuState, (replayStu s events).is_admin = s.is_admin := by
  induction events with
  | nil => intro s; rfl
  | cons e es ih =>
    intro s
    show (replayStu (applyEvent e s) es).is_admin = s.is_admin
    rw [ih (applyEvent e s), applyEvent_is_admin]

lemma replay_absence (events : List PresenceEvent) :
    ∀ s : StuState, (replayStu s events).absence = absFold events s.absence := by
  induction events with
  | nil => intro s; rfl
  | cons e es ih =>
    intro s
    show (replayStu (applyEvent e s) es).absence = absFold es (absStep e s.absence)
    rw [ih (applyEvent e s), applyEvent_absence]

lemma replay_absence_split (events : List PresenceEvent) :
    ∀ (s : StuState) (a : Option AbsenceInfo),
      replayStu { s with absence := a } events =
        { replayStu s events with absence := absFold events a } := by
  induction events with
  | nil => intro s a; rfl
  | cons e es ih =>
    intro s a
    show replayStu (applyEvent e { s with absence := a }) es =
      { replayStu s (e :: es) with absence := absFold (e :: es) a }
    rw [applyEvent_absence_split, ih (applyEvent e s) (absStep e a)]
    rfl

lemma wrapAfterReplay_absence (events : List PresenceEvent) (r : StuState) :
    (wrapAfterReplay events r).absence = r.absence := by
  rw [wrapAfterReplay]
  split <;> rfl

lemma wrapAfterReplay_id (events : List PresenceEvent) (r : StuState) :
    (wrapAfterReplay events r).id = r.id := by
  rw [wrapAfterReplay]
  split <;> rfl

lemma wrapAfterReplay_is_admin (events : List PresenceEvent) (r : StuState) :
    (wrapAfterReplay events r).is_admin = r.is_admin := by
  rw [wrapAfterReplay]
  split <;> rfl

lemma recover_id (events : List PresenceEvent) (s : StuState) :
    (recoverStu events s).id = s.id := by
  rw [recoverStu, wrapAfterReplay_id, replay_id]
  rfl

lemma recover_is_admin (events : List PresenceEvent) (s : StuState) :
    (recoverStu events s).is_admin = s.is_admin := by
  rw [recoverStu, wrapAfterReplay_is_admin, replay_is_admin]
  rfl

lemma recover_absence (events : List PresenceEvent) (s : StuState) :
    (recoverStu events s).absence = absFold events s.absence := by
  have hr : (replayStu (resetForRecovery s) events).absence =
      absFold events s.absence := replay_absence events (resetForRecovery s)
  rw [recoverStu, wrapAfterReplay_absence]
  exact hr

lemma reset_congr (s s2 : StuState) (hid : s2.id = s.id)
    (hadm : s2.is_admin = s.is_admin) :
    resetForRecovery s2 = { resetForRecovery s with absence := s2.absence } := by
  simp [resetForRecovery, hid, hadm]

lemma clearOnJoin_idem (a : Option AbsenceInfo) :
    clearOnJoin (clearOnJoin a) = clearOnJoin a := by
  rcases a with _ | i
  · rfl
  · by_cases h : i.ty = .leave ∨ i.ty = .early_leave
    · simp [clearOnJoin, h]
    · simp [clearOnJoin, h]

/-- Each event acts on the absence field as the identity, as the return-scoped
clear, or as a constant; hence so does any event list. -/
lemma absFold_shape (events : List PresenceEvent) :
    (∀ a, absFold events a = a) ∨
    (∀ a, absFold events a = clearOnJoin a) ∨
    (∃ c, ∀ a, absFold events a = c) := by
  induction events with
  | nil => exact Or.inl fun a => rfl
  | cons e es ih =>
    cases e with
    | cameraOn t => exact ih
    | cameraOff t => exact ih
    | leave t => exact ih
    | join t =>
      rcases ih with h | h | ⟨c, h⟩
      · exact Or.inr (Or.inl fun a => h (clearOnJoin a))
      · exact Or.inr (Or.inl fun a =>
          (h (clearOnJoin a)).trans (clearOnJoin_idem a))
      · exact Or.inr (Or.inr ⟨c, fun a => h (clearOnJoin a)⟩)
    | statusChange t info =>
      exact Or.inr (Or.inr
        ⟨absFold es (some { info with set_at := t }), fun a => rfl⟩)

lemma absFold_idem (events : List PresenceEvent) (a : Option AbsenceInfo) :
    absFold events (absFold events a) = absFold events a := by
  rcases absFold_shape events with h | h | ⟨c, h⟩
  · rw [h (absFold events a)]
  · rw [h (absFold events a), h a]
    exact clearOnJoin_idem a
  · rw [h (absFold events a), h a]

/-- Running the recovery procedure a second time replays onto the same state:
the reset erases everything but the absence field, and the absence action of a
fixed history is idempotent. -/
lemma recoverStu_idem (events : List PresenceEvent) (s : StuState) :
    recoverStu events (recoverStu events s) = recoverStu events s := by
  have hrep : replayStu (resetForRecovery (recoverStu events s)) events =
      replayStu (resetForRecovery s) events := by
    rw [reset_congr s (recoverStu events s) (recover_id events s)
      (recover_is_admin events s)]
    rw [replay_absence_split events (resetForRecovery s)
      ((recoverStu events s).absence)]
    rw [recover_absence events s, absFold_idem events s.absence]
    have h2 : absFold events s.absence =
        (replayStu (resetForRecovery s) events).absence := by
      rw [replay_absence events (resetForRecovery s)]
      rfl
    rw [h2]
  rw [recoverStu, hrep]
  rfl

lemma replayStuLogged_go (events : List PresenceEvent) :
    ∀ (s : StuState) (acc : List Alert),
      events.foldl (fun acc2 e => (applyEvent e acc2.1, acc2.2)) (s, acc) =
        (replayStu s events, acc) := by
  induction events with
  | nil => intro s acc; rfl
  | cons e es ih => intro s acc; exact ih (applyEvent e s) acc

/-- Claim C7: Replaying an identical relay-message history twice through the
restart-recovery procedure (classify, de-duplicate, replay through the state
machine in order) yields the identical final presence state — the procedure is
idempotent — and replay fires zero notifications: its alert accumulator stays
empty and its state is exactly the state-machine fold, the escalation engine
never being invoked. -/
theorem replayIdempotent (classify : RelayMsg → Option PresenceEvent)
    (msgs : List RelayMsg) (events : List PresenceEvent) (s : StuState) :
    recoverFromHistory classify msgs (recoverFromHistory classify msgs s) =
      recoverFromHistory classify msgs s ∧
    (replayStuLogged (resetForRecovery s) events).2 = [] ∧
    (replayStuLogged (resetForRecovery s) events).1 =
      replayStu (resetForRecovery s) events := by
  refine ⟨recoverStu_idem ((dedupById msgs).filterMap classify) s, ?_, ?_⟩
  · rw [replayStuLogged, replayStuLogged_go events (resetForRecovery s) []]
  · rw [replayStuLogged, replayStuLogged_go events (resetForRecovery s) []]

end AutoMonitor
